import Mathlib

/-!
# WHILE-language front end: shallow embedding and verification

Shallow embedding of the two-stage front end of the `while_language`
repository: the scanner (`src/lexer.py`, classes `Token` and `Lexer`) and the
recursive-descent parser (`src/parser.py`, class `Parser`).

Conventions of the embedding:
* the source string is a `List Char`; the scanner's cursor is a `Nat` index;
* Python's stored `_char` field is derived (`Lexer.char`): every reachable
  Python state keeps `_char` equal to `string[position]` when `position` is in
  range and `None` otherwise, because each mutator re-derives it;
* fallible operations return `Except`; the error type separates the
  deliberately raised errors (the scanner's `SyntaxError("Invalid character")`
  and `SyntaxError("Expected digit")`, the parser's `SyntaxError`s) from the
  unintended Python runtime failures (`IndexError` on an out-of-range string
  or list index, `AttributeError` on calling a method of `None`);
* `print` debugging calls in the source are side effects with no bearing on
  values and are not modelled;
* recursion in the parser is bounded by an explicit fuel parameter; the
  `ParseError.fuel` outcome never occurs at the fuel values used in theorems.
-/

/-- The value carried by a token: Python stores an `int` for integer literals,
a `str` for identifiers, keywords and operators, and `None` for EOF. -/
inductive TokenValue where
  | none
  | int (i : Int)
  | str (s : String)
deriving DecidableEq, Repr

/-- Model of `Token.Type` from `src/lexer.py`: the closed enumeration of token kinds. -/
inductive TokenType where
  | INTEGER | IDENTIFIER | PLUS | MINUS | TIMES | FF | TT | EQUALS
  | LESS_THAN | GREATER_THAN | LESS_OR_EQUAL | GREATER_OR_EQUAL
  | NOT | AND | ASSIGNMENT | SKIP | EOL | IF | THEN | ELSE
  | WHILE | DO | EOF | LEFT_BRACKET | RIGHT_BRACKET | END
deriving DecidableEq, Repr

/-- Model of `Token` from `src/lexer.py`: an immutable `(value, token_type)` pair. -/
structure Token where
  value : TokenValue
  tokenType : TokenType
deriving DecidableEq, Repr

/-- Failure modes of the scanner.  `invalidCharacter` and `expectedDigit` are
the two `raise SyntaxError(...)` statements in `next_token` (the spec's
LexicalError kind); `indexError` models a Python `IndexError` from an
out-of-range string index; `noneType` models the `AttributeError` raised by
calling a method on `None` (the sentinel for an exhausted cursor). -/
inductive LexError where
  | invalidCharacter
  | expectedDigit
  | indexError
  | noneType
  | fuel
deriving DecidableEq, Repr

/-- Python's `str.isspace` restricted to the character set the language uses
(ASCII whitespace). -/
def pyIsSpace (c : Char) : Bool :=
  c == ' ' || c == '\t' || c == '\n' || c == '\x0b' || c == '\x0c' || c == '\r'

/-- Python's `str.isdigit` on the language's character set. -/
def pyIsDigit (c : Char) : Bool := c.isDigit

/-- Python's `str.isalnum` on the language's character set (note that the two
non-ASCII operator characters are not alphanumeric, in Python and here). -/
def pyIsAlnum (c : Char) : Bool := c.isAlpha || c.isDigit

/-- Table `Lexer._keywords`, in Python dict insertion order. -/
def keywordTable : List (List Char × TokenType) :=
  [("ff".data, .FF), ("tt".data, .TT), ("skip".data, .SKIP),
   ("if".data, .IF), ("then".data, .THEN), ("else".data, .ELSE),
   ("while".data, .WHILE), ("do".data, .DO), ("end".data, .END)]

/-- Table `Lexer._long_operators`, in Python dict insertion order. -/
def longOperatorTable : List (List Char × TokenType) :=
  [(":=".data, .ASSIGNMENT), ("<=".data, .LESS_OR_EQUAL),
   (">=".data, .GREATER_OR_EQUAL)]

/-- Table `Lexer._special_characters`, in Python dict insertion order. -/
def specialCharacterTable : List (Char × TokenType) :=
  [('+', .PLUS), ('-', .MINUS), ('*', .TIMES), ('=', .EQUALS),
   ('<', .LESS_THAN), ('>', .GREATER_THAN), ('¬', .NOT), ('^', .AND),
   (';', .EOL), ('(', .LEFT_BRACKET), (')', .RIGHT_BRACKET)]

/-- Membership test `char in self._special_characters` (dict-key membership). -/
def isSpecialChar (c : Char) : Bool :=
  specialCharacterTable.any (fun kv => kv.fst == c)

/-- Scanner state: source text plus cursor position.  The stored `_char`
field of the Python object is recovered by `Lexer.char`. -/
structure Lexer where
  string : List Char
  position : Nat
deriving DecidableEq, Repr

/-- The character under the cursor (`self._char`): `None` iff the cursor is
past the end. -/
def Lexer.char (l : Lexer) : Option Char := l.string[l.position]?

/-- Model of `Lexer.__init__`: stores the string, sets the position to 0 and reads
`string[0]`, which raises `IndexError` on the empty string. -/
def Lexer.init (s : List Char) : Except LexError Lexer :=
  match s[0]? with
  | some _ => .ok ⟨s, 0⟩
  | none => .error .indexError

/-- Model of `Lexer._next_char`: advance by one; `_char` becomes `None` past the end. -/
def Lexer.nextChar (l : Lexer) : Lexer := ⟨l.string, l.position + 1⟩

/-- Model of `Lexer._next_chars(i)`: advance by `i` and return the characters moved
over, as the (clamped) slice `string[position : position + i]`. -/
def Lexer.nextChars (l : Lexer) (i : Nat) : List Char × Lexer :=
  ((l.string.drop l.position).take i, ⟨l.string, l.position + i⟩)

/-- Model of `Lexer._previous_chars(i)`: move `i` characters back and re-read
`string[position]`, which raises `IndexError` when the new position is out of
range.  (At every call site in the source, `i` is at most the amount just
advanced, so the Python position stays non-negative and the truncated `Nat`
subtraction agrees with Python's arithmetic.) -/
def Lexer.previousChars (l : Lexer) (i : Nat) : Except LexError Lexer :=
  let p := l.position - i
  if p < l.string.length then .ok ⟨l.string, p⟩ else .error .indexError

/-- Body of the whitespace-skipping loop at the top of `next_token`, as
structural recursion on a fuel bound.  Each iteration advances the cursor by
one, so fuel `string.length + 1 - position` (what `Lexer.skipWhitespace`
supplies) never runs out: the `None` test fires first. -/
def skipWhitespaceF : Nat → Lexer → Except LexError Lexer
  | 0, _ => .error .fuel
  | f + 1, l =>
    match l.char with
    | Option.none => .error .noneType
    | some c =>
      if pyIsSpace c then skipWhitespaceF f l.nextChar
      else .ok l

/-- The whitespace-skipping loop at the top of `next_token`: while
`self._char.isspace()`, advance.  When the cursor runs off the end inside
the loop, the next test calls `.isspace()` on `None` (`AttributeError`). -/
def Lexer.skipWhitespace (l : Lexer) : Except LexError Lexer :=
  skipWhitespaceF (l.string.length + 1 - l.position) l

/-- Model of `Lexer._match_keyword`: tentatively consume `len(keyword) + 1` characters;
commit when the prefix is the keyword and the following character is
whitespace, `;`, or absent, rolling back one character; otherwise roll back
everything.  The commit-time rollback re-reads `string[position]`, which
raises `IndexError` when the keyword sits at the very end of the input. -/
def Lexer.matchKeyword (l : Lexer) (kw : List Char) (ty : TokenType) :
    Except LexError (Option Token × Lexer) :=
  let res := l.nextChars (kw.length + 1)
  let nc := res.fst
  let l1 := res.snd
  if nc.take kw.length == kw &&
     (nc.length == kw.length ||
      (match nc[kw.length]? with
       | some c => pyIsSpace c || c == ';'
       | Option.none => false)) then
    match l1.previousChars 1 with
    | .error e => .error e
    | .ok l2 => .ok (some ⟨.str (String.mk kw), ty⟩, l2)
  else
    match l1.previousChars (kw.length + 1) with
    | .error e => .error e
    | .ok l2 => .ok (Option.none, l2)

/-- Model of `Lexer._match_long_operator`: tentatively consume `len(operator)`
characters; commit on exact match, else roll back. -/
def Lexer.matchLongOperator (l : Lexer) (op : List Char) (ty : TokenType) :
    Except LexError (Option Token × Lexer) :=
  let res := l.nextChars op.length
  let nc := res.fst
  let l1 := res.snd
  if nc == op then .ok (some ⟨.str (String.mk op), ty⟩, l1)
  else
    match l1.previousChars op.length with
    | .error e => .error e
    | .ok l2 => .ok (Option.none, l2)

/-- The keyword-matching loop of `next_token`: for each dict entry whose
first character equals the current character, attempt `_match_keyword`;
return on the first success. -/
def tryKeywords (l : Lexer) :
    List (List Char × TokenType) → Except LexError (Option Token × Lexer)
  | [] => .ok (Option.none, l)
  | (kw, ty) :: rest =>
    if l.char == kw.head? then
      match l.matchKeyword kw ty with
      | .error e => .error e
      | .ok (some t, l2) => .ok (some t, l2)
      | .ok (Option.none, l2) => tryKeywords l2 rest
    else tryKeywords l rest

/-- The long-operator-matching loop of `next_token`. -/
def tryLongOperators (l : Lexer) :
    List (List Char × TokenType) → Except LexError (Option Token × Lexer)
  | [] => .ok (Option.none, l)
  | (op, ty) :: rest =>
    if l.char == op.head? then
      match l.matchLongOperator op ty with
      | .error e => .error e
      | .ok (some t, l2) => .ok (some t, l2)
      | .ok (Option.none, l2) => tryLongOperators l2 rest
    else tryLongOperators l rest

/-- The special-character loop of `next_token`: on a match, consume one
character and return the token immediately. -/
def trySpecialCharacters (l : Lexer) :
    List (Char × TokenType) → Option (Token × Lexer)
  | [] => Option.none
  | (c, ty) :: rest =>
    if l.char == some c then some (⟨.str (String.mk [c]), ty⟩, l.nextChar)
    else trySpecialCharacters l rest

/-- Decimal digit accumulation for `int(num)`. -/
def digitsToNat (cs : List Char) : Nat :=
  cs.foldl (fun a c => a * 10 + (c.toNat - 48)) 0

/-- Python's `int(...)` on the strings the scanner can build: an optional
leading minus sign followed by decimal digits. -/
def pyInt (cs : List Char) : Int :=
  match cs with
  | '-' :: rest => -(digitsToNat rest : Int)
  | _ => (digitsToNat cs : Int)

/-- Body of the integer-accumulation loop of `next_token`, as structural
recursion on a fuel bound (each iteration advances the cursor, so the fuel
`eatInteger` supplies never runs out): eat characters until `None`,
whitespace or a special character; a non-digit on the way raises
`SyntaxError("Expected digit")`. -/
def eatIntegerF : Nat → Lexer → List Char → Except LexError (List Char × Lexer)
  | 0, _, _ => .error .fuel
  | f + 1, l, num =>
    match l.char with
    | Option.none => .ok (num, l)
    | some c =>
      if pyIsSpace c then .ok (num, l)
      else if isSpecialChar c then .ok (num, l)
      else if pyIsDigit c then eatIntegerF f l.nextChar (num ++ [c])
      else .error .expectedDigit

/-- The integer-accumulation loop of `next_token`. -/
def eatInteger (l : Lexer) (num : List Char) :
    Except LexError (List Char × Lexer) :=
  eatIntegerF (l.string.length + 1 - l.position) l num

/-- Body of the identifier-accumulation loop of `next_token`, as structural
recursion on a fuel bound (each iteration advances the cursor, so the fuel
`eatIdentifier` supplies never runs out): eat characters until `None`,
whitespace or a non-alphanumeric character.  The fuel-exhausted result
returns the accumulator unchanged and is never reached. -/
def eatIdentifierF : Nat → Lexer → List Char → List Char × Lexer
  | 0, l, acc => (acc, l)
  | f + 1, l, acc =>
    match l.char with
    | Option.none => (acc, l)
    | some c =>
      if pyIsSpace c then (acc, l)
      else if !(pyIsAlnum c) then (acc, l)
      else eatIdentifierF f l.nextChar (acc ++ [c])

/-- The identifier-accumulation loop of `next_token`. -/
def eatIdentifier (l : Lexer) (acc : List Char) : List Char × Lexer :=
  eatIdentifierF (l.string.length + 1 - l.position) l acc

/-- Model of `Lexer.next_token`, following the source step by step: EOF sentinel,
whitespace skipping, keywords, long operators, special characters, the
invalid-character check, integers, identifiers. -/
def Lexer.nextToken (l : Lexer) : Except LexError (Token × Lexer) :=
  match l.char with
  | Option.none => .ok (⟨.none, .EOF⟩, l)
  | some _ =>
    match l.skipWhitespace with
    | .error e => .error e
    | .ok l =>
      match tryKeywords l keywordTable with
      | .error e => .error e
      | .ok (some t, l) => .ok (t, l)
      | .ok (Option.none, l) =>
        match tryLongOperators l longOperatorTable with
        | .error e => .error e
        | .ok (some t, l) => .ok (t, l)
        | .ok (Option.none, l) =>
          match trySpecialCharacters l specialCharacterTable with
          | some (t, l) => .ok (t, l)
          | Option.none =>
            match l.char with
            | Option.none => .error .noneType
            | some c =>
              if !(pyIsAlnum c) then .error .invalidCharacter
              else if pyIsDigit c || c == '-' then
                match eatInteger l.nextChar [c] with
                | .error e => .error e
                | .ok (num, l2) => .ok (⟨.int (pyInt num), .INTEGER⟩, l2)
              else
                let res := eatIdentifier l.nextChar [c]
                .ok (⟨.str (String.mk res.fst), .IDENTIFIER⟩, res.snd)

/-- The demo driver's loop (`__main__` in `src/lexer.py`): call `next_token`
until the EOF token appears, collecting every token including the final EOF.
The fuel only bounds the Lean recursion; `string.length + 1` always
suffices because each non-EOF token advances the cursor. -/
def tokenize (l : Lexer) : Nat → Except LexError (List Token)
  | 0 => .error .fuel
  | f + 1 =>
    match l.nextToken with
    | .error e => .error e
    | .ok (t, l') =>
      if t.tokenType == .EOF then .ok [t]
      else
        match tokenize l' f with
        | .error e => .error e
        | .ok ts => .ok (t :: ts)

/-- Construct a scanner on a source string and run it to exhaustion. -/
def lexProgram (s : String) : Except LexError (List Token) :=
  match Lexer.init s.data with
  | .error e => .error e
  | .ok l => tokenize l (s.length + 1)

/-- First token of a source string (construct the scanner, call `next_token`
once). -/
def lexFirstToken (s : String) : Except LexError Token :=
  match Lexer.init s.data with
  | .error e => .error e
  | .ok l =>
    match l.nextToken with
    | .error e => .error e
    | .ok (t, _) => .ok t

/-- Outcome of the second `next_token` call on a source string. -/
def lexSecondToken (s : String) : Except LexError Token :=
  match Lexer.init s.data with
  | .error e => .error e
  | .ok l =>
    match l.nextToken with
    | .error e => .error e
    | .ok (_, l1) =>
      match l1.nextToken with
      | .error e => .error e
      | .ok (t, _) => .ok t


/-!
## Parser (`src/parser.py`)

The AST constructors mirror the `Parser.*Node` classes; node fields store the
raw token values exactly as the Python constructors receive them
(`get_value()` results).  `_parse_while_statement` is referenced by the
statement dispatcher but absent from `src/parser.py`; it is modelled from the
spec below.
-/

/-- The AST node classes of `Parser` (one untyped tree, as in Python). -/
inductive Ast where
  | programNode (statements : List Ast)
  | assignStatementNode (left right : Ast)
  | ifStatementNode (condition : Ast) (ifBody elseBody : List Ast)
  | whileStatementNode (condition : Ast) (body : List Ast)
  | arithmeticExpressionNode (left : Ast) (op : TokenValue) (right : Ast)
  | intNode (value : TokenValue)
  | varNode (value : TokenValue)
  | boolNode (value : Bool)
  | notNode (boolean : Ast)
  | comparisonNode (left : Ast) (op : TokenValue) (right : Ast)
  | andNode (left right : Ast)
deriving Repr

/-- Failure modes of the parser.  The three `SyntaxError` templates in the
source are kept as structured data: `expected msg value` is
`_consume_token_type`'s `SyntaxError(error_message + ", Current token: " +
value)`; `unexpectedToken value` is the `SyntaxError("Unexpected token ...")`
of `_parse_statement` / `_parse_arithmetic_factor` / `_parse_boolean_factor`;
`unexpectedEof kw` is `SyntaxError("Unexpected end of file, expected '<kw>'")`.
`indexError` models a Python `IndexError` from `self.program[self.position]`,
and `fuel` is the Lean recursion bound (never reached at the fuel values the
theorems use). -/
inductive ParseError where
  | expected (msg : String) (value : TokenValue)
  | unexpectedToken (value : TokenValue)
  | unexpectedEof (keyword : String)
  | indexError
  | fuel
deriving DecidableEq, Repr

/-- Parser state: the materialized token sequence and the cursor index.  The
stored `current_token` field is recovered by `ParserState.currentToken`: in
every reachable state the position is in range (`__init__` and
`_consume_next_token` both read `program[position]` before producing a
state), so the default is never consulted. -/
structure ParserState where
  program : List Token
  position : Nat
deriving DecidableEq, Repr

/-- Field `self.current_token` (`program[position]`). -/
def ParserState.currentToken (p : ParserState) : Token :=
  p.program.getD p.position ⟨.none, .EOF⟩

/-- Model of `Parser.__init__`: reads `program[0]`, an `IndexError` on an empty
sequence. -/
def Parser.init (toks : List Token) : Except ParseError ParserState :=
  match toks[0]? with
  | some _ => .ok ⟨toks, 0⟩
  | Option.none => .error .indexError

/-- Model of `_consume_next_token`: return the current token and advance; reading
`program[position + 1]` for the new `current_token` raises `IndexError` when
the cursor moves past the final (EOF) token. -/
def consumeNextToken (p : ParserState) : Except ParseError (Token × ParserState) :=
  match p.program[p.position]? with
  | Option.none => .error .indexError
  | some old =>
    match p.program[p.position + 1]? with
    | Option.none => .error .indexError
    | some _ => .ok (old, ⟨p.program, p.position + 1⟩)

/-- Model of `_consume_token_type`: consume if the current token has the expected
kind, else raise a `SyntaxError` carrying the message and the current
token's value. -/
def consumeTokenType (p : ParserState) (ty : TokenType) (msg : String) :
    Except ParseError (Token × ParserState) :=
  if p.currentToken.tokenType == ty then consumeNextToken p
  else .error (.expected msg p.currentToken.value)

/-- The comparison-operator list of `_parse_boolean_expression`. -/
def comparisonOps : List TokenType :=
  [.EQUALS, .LESS_THAN, .LESS_OR_EQUAL, .GREATER_THAN, .GREATER_OR_EQUAL]

/-- The lookahead list `ops` of `_parse_boolean_factor` (comparison
operators plus the right bracket). -/
def boolFactorOps : List TokenType :=
  [.EQUALS, .LESS_THAN, .LESS_OR_EQUAL, .GREATER_THAN, .GREATER_OR_EQUAL,
   .RIGHT_BRACKET]

mutual

/-- Model of `_parse_statement`: dispatch on the current token's kind. -/
def parseStatement : Nat → ParserState → Except ParseError (Ast × ParserState)
  | 0, _ => .error .fuel
  | f + 1, p =>
    match p.currentToken.tokenType with
    | .IF => parseIfStatement f p
    | .WHILE => parseWhileStatement f p
    | .IDENTIFIER => parseAssignStatement f p
    | _ => .error (.unexpectedToken p.currentToken.value)

/-- Model of `_parse_assign_statement`. -/
def parseAssignStatement : Nat → ParserState → Except ParseError (Ast × ParserState)
  | 0, _ => .error .fuel
  | f + 1, p =>
    match consumeNextToken p with
    | .error e => .error e
    | .ok (leftToken, p) =>
      match consumeTokenType p .ASSIGNMENT "Expected :=" with
      | .error e => .error e
      | .ok (_, p) =>
        match parseArithmeticExpression f p with
        | .error e => .error e
        | .ok (rightNode, p) =>
          .ok (.assignStatementNode (.varNode leftToken.value) rightNode, p)

/-- Model of `_parse_arithmetic_expression`: a term followed by the `+`/`-` loop. -/
def parseArithmeticExpression : Nat → ParserState → Except ParseError (Ast × ParserState)
  | 0, _ => .error .fuel
  | f + 1, p =>
    match parseArithmeticTerm f p with
    | .error e => .error e
    | .ok (expression, p) => arithmeticOpsLoop f expression p

/-- The `while self.current_token ... in [PLUS, MINUS]` loop of
`_parse_arithmetic_expression`, building left-nested
`ArithmeticExpressionNode`s. -/
def arithmeticOpsLoop : Nat → Ast → ParserState → Except ParseError (Ast × ParserState)
  | 0, _, _ => .error .fuel
  | f + 1, expression, p =>
    if p.currentToken.tokenType == .PLUS || p.currentToken.tokenType == .MINUS then
      match consumeNextToken p with
      | .error e => .error e
      | .ok (opToken, p) =>
        match parseArithmeticTerm f p with
        | .error e => .error e
        | .ok (right, p) =>
          arithmeticOpsLoop f (.arithmeticExpressionNode expression opToken.value right) p
    else .ok (expression, p)

/-- Model of `_parse_arithmetic_term`: a factor followed by the `*` loop. -/
def parseArithmeticTerm : Nat → ParserState → Except ParseError (Ast × ParserState)
  | 0, _ => .error .fuel
  | f + 1, p =>
    match parseArithmeticFactor f p with
    | .error e => .error e
    | .ok (expression, p) => timesLoop f expression p

/-- The `while self.current_token ... == TIMES` loop of
`_parse_arithmetic_term`. -/
def timesLoop : Nat → Ast → ParserState → Except ParseError (Ast × ParserState)
  | 0, _, _ => .error .fuel
  | f + 1, expression, p =>
    if p.currentToken.tokenType == .TIMES then
      match consumeNextToken p with
      | .error e => .error e
      | .ok (opToken, p) =>
        match parseArithmeticFactor f p with
        | .error e => .error e
        | .ok (right, p) =>
          timesLoop f (.arithmeticExpressionNode expression opToken.value right) p
    else .ok (expression, p)

/-- Model of `_parse_arithmetic_factor`: identifier, integer, or parenthesized
expression; anything else is `SyntaxError("Unexpected token ...")`. -/
def parseArithmeticFactor : Nat → ParserState → Except ParseError (Ast × ParserState)
  | 0, _ => .error .fuel
  | f + 1, p =>
    match consumeNextToken p with
    | .error e => .error e
    | .ok (token, p) =>
      match token.tokenType with
      | .IDENTIFIER => .ok (.varNode token.value, p)
      | .INTEGER => .ok (.intNode token.value, p)
      | .LEFT_BRACKET =>
        match parseArithmeticExpression f p with
        | .error e => .error e
        | .ok (expression, p) =>
          match consumeTokenType p .RIGHT_BRACKET "Expected \x27)\x27" with
          | .error e => .error e
          | .ok (_, p) => .ok (expression, p)
      | _ => .error (.unexpectedToken token.value)

/-- Model of `_parse_if_statement`.  Note that the token in the `then` position is
consumed with `_consume_next_token` (no kind check), exactly as in the
source. -/
def parseIfStatement : Nat → ParserState → Except ParseError (Ast × ParserState)
  | 0, _ => .error .fuel
  | f + 1, p =>
    match consumeNextToken p with   -- consume if
    | .error e => .error e
    | .ok (_, p) =>
      match parseBooleanExpression f p with
      | .error e => .error e
      | .ok (condition, p) =>
        match consumeNextToken p with   -- consume then (unchecked)
        | .error e => .error e
        | .ok (_, p) =>
          match parseStatementsUntil f .ELSE "else" [] p with
          | .error e => .error e
          | .ok (ifBody, p) =>
            match consumeNextToken p with   -- consume else
            | .error e => .error e
            | .ok (_, p) =>
              match parseStatementsUntil f .END "end" [] p with
              | .error e => .error e
              | .ok (elseBody, p) =>
                match consumeNextToken p with   -- consume end
                | .error e => .error e
                | .ok (_, p) => .ok (.ifStatementNode condition ifBody elseBody, p)

/-- The body loops of `_parse_if_statement` (and of the modelled
`_parse_while_statement`): parse `(Statement ';')*` until the closing
keyword appears; end-of-input first raises `SyntaxError("Unexpected end of
file, expected '<kw>'")`. -/
def parseStatementsUntil : Nat → TokenType → String → List Ast → ParserState →
    Except ParseError (List Ast × ParserState)
  | 0, _, _, _, _ => .error .fuel
  | f + 1, closing, kw, acc, p =>
    if p.currentToken.tokenType == closing then .ok (acc, p)
    else if p.currentToken.tokenType == .EOF then .error (.unexpectedEof kw)
    else
      match parseStatement f p with
      | .error e => .error e
      | .ok (stmt, p) =>
        match consumeTokenType p .EOL "Expected semicolon" with
        | .error e => .error e
        | .ok (_, p) => parseStatementsUntil f closing kw (acc ++ [stmt]) p

/-- Modelled from the spec: `_parse_while_statement` is referenced by the
statement dispatcher (`case Token.Type.WHILE`) but its body is missing from
`src/parser.py`.  Per the spec it is "implemented symmetrically to `If`'s
single-branch body" for the production
`'while' BoolExpr 'do' (Statement ';')* 'end'`: consume `while`, parse the
condition, consume `do` (unchecked, like `if`'s `then`), parse the body
statements until `end`, consume `end`. -/
def parseWhileStatement : Nat → ParserState → Except ParseError (Ast × ParserState)
  | 0, _ => .error .fuel
  | f + 1, p =>
    match consumeNextToken p with   -- consume while
    | .error e => .error e
    | .ok (_, p) =>
      match parseBooleanExpression f p with
      | .error e => .error e
      | .ok (condition, p) =>
        match consumeNextToken p with   -- consume do
        | .error e => .error e
        | .ok (_, p) =>
          match parseStatementsUntil f .END "end" [] p with
          | .error e => .error e
          | .ok (body, p) =>
            match consumeNextToken p with   -- consume end
            | .error e => .error e
            | .ok (_, p) => .ok (.whileStatementNode condition body, p)

/-- Model of `_parse_boolean_expression`: a boolean term followed by the
comparison-operator loop (so comparisons sit ABOVE `^` in this grammar). -/
def parseBooleanExpression : Nat → ParserState → Except ParseError (Ast × ParserState)
  | 0, _ => .error .fuel
  | f + 1, p =>
    match parseBooleanTerm f p with
    | .error e => .error e
    | .ok (expression, p) => comparisonLoop f expression p

/-- The `while self.current_token ... in operators` loop of
`_parse_boolean_expression`, building left-nested `ComparisonNode`s. -/
def comparisonLoop : Nat → Ast → ParserState → Except ParseError (Ast × ParserState)
  | 0, _, _ => .error .fuel
  | f + 1, expression, p =>
    if comparisonOps.contains p.currentToken.tokenType then
      match consumeNextToken p with
      | .error e => .error e
      | .ok (opToken, p) =>
        match parseBooleanTerm f p with
        | .error e => .error e
        | .ok (right, p) =>
          comparisonLoop f (.comparisonNode expression opToken.value right) p
    else .ok (expression, p)

/-- Model of `_parse_boolean_term`: a boolean factor followed by the `^` loop. -/
def parseBooleanTerm : Nat → ParserState → Except ParseError (Ast × ParserState)
  | 0, _ => .error .fuel
  | f + 1, p =>
    match parseBooleanFactor f p with
    | .error e => .error e
    | .ok (expression, p) => andLoop f expression p

/-- The `while self.current_token ... == AND` loop of
`_parse_boolean_term`. -/
def andLoop : Nat → Ast → ParserState → Except ParseError (Ast × ParserState)
  | 0, _, _ => .error .fuel
  | f + 1, expression, p =>
    if p.currentToken.tokenType == .AND then
      match consumeNextToken p with
      | .error e => .error e
      | .ok (_, p) =>
        match parseBooleanFactor f p with
        | .error e => .error e
        | .ok (right, p) => andLoop f (.andNode expression right) p
    else .ok (expression, p)

/-- Model of `_parse_boolean_factor`.  After consuming an identifier/integer atom, one
token of lookahead decides between "single comparand" and the fall-through
call to `_parse_arithmetic_expression` — which, as in the source, starts at
the CURRENT position: the consumed atom is not rewound. -/
def parseBooleanFactor : Nat → ParserState → Except ParseError (Ast × ParserState)
  | 0, _ => .error .fuel
  | f + 1, p =>
    match consumeNextToken p with
    | .error e => .error e
    | .ok (token, p) =>
      match token.tokenType with
      | .TT => .ok (.boolNode true, p)
      | .FF => .ok (.boolNode false, p)
      | .NOT =>
        match parseBooleanExpression f p with
        | .error e => .error e
        | .ok (expression, p) => .ok (.notNode expression, p)
      | .LEFT_BRACKET =>
        match parseBooleanExpression f p with
        | .error e => .error e
        | .ok (expression, p) =>
          match consumeTokenType p .RIGHT_BRACKET "Expected \x27)\x27" with
          | .error e => .error e
          | .ok (_, p) => .ok (expression, p)
      | .IDENTIFIER =>
        if boolFactorOps.contains p.currentToken.tokenType then
          .ok (.varNode token.value, p)
        else parseArithmeticExpression f p
      | .INTEGER =>
        if boolFactorOps.contains p.currentToken.tokenType then
          .ok (.intNode token.value, p)
        else parseArithmeticExpression f p
      | _ => .error (.unexpectedToken token.value)

end

/-- The statement loop of `parse_program`: parse `Statement ';'` until the
EOF token, appending each statement. -/
def parseProgramAux : Nat → List Ast → ParserState → Except ParseError (Ast × ParserState)
  | 0, _, _ => .error .fuel
  | f + 1, acc, p =>
    if p.currentToken.tokenType == .EOF then .ok (.programNode acc, p)
    else
      match parseStatement f p with
      | .error e => .error e
      | .ok (stmt, p) =>
        match consumeTokenType p .EOL "Expected semicolon" with
        | .error e => .error e
        | .ok (_, p) => parseProgramAux f (acc ++ [stmt]) p

/-- Model of `parse_program`. -/
def parseProgram (fuel : Nat) (p : ParserState) : Except ParseError (Ast × ParserState) :=
  parseProgramAux fuel [] p

/-- Construct a `Parser` on a token sequence and run `parse_program`,
returning the root node. -/
def runParser (toks : List Token) (fuel : Nat) : Except ParseError Ast :=
  match Parser.init toks with
  | .error e => .error e
  | .ok p =>
    match parseProgram fuel p with
    | .error e => .error e
    | .ok (a, _) => .ok a


/-!
## Claim theorems

Concrete token sequences are written as the scanner produces them (keyword
and operator tokens carry their text, integer tokens their value, the EOF
token `None`).
-/

/-- Tokens of `while tt do x := 1; end ;`. -/
def whileDemoTokens : List Token :=
  [⟨.str "while", .WHILE⟩, ⟨.str "tt", .TT⟩, ⟨.str "do", .DO⟩,
   ⟨.str "x", .IDENTIFIER⟩, ⟨.str ":=", .ASSIGNMENT⟩, ⟨.int 1, .INTEGER⟩,
   ⟨.str ";", .EOL⟩, ⟨.str "end", .END⟩, ⟨.str ";", .EOL⟩, ⟨.none, .EOF⟩]

/-- Tokens of `while x < 10 do x := 1; end ;`: a well-formed while statement
under the spec grammar (the comparand `10` is followed by `do`, so the
grammar's `BoolFactor ::= ArithExpr` alternative applies to it). -/
def whileGrammarTokens : List Token :=
  [⟨.str "while", .WHILE⟩, ⟨.str "x", .IDENTIFIER⟩, ⟨.str "<", .LESS_THAN⟩,
   ⟨.int 10, .INTEGER⟩, ⟨.str "do", .DO⟩, ⟨.str "x", .IDENTIFIER⟩,
   ⟨.str ":=", .ASSIGNMENT⟩, ⟨.int 1, .INTEGER⟩, ⟨.str ";", .EOL⟩,
   ⟨.str "end", .END⟩, ⟨.str ";", .EOL⟩, ⟨.none, .EOF⟩]

/-- C1 (as amended).  The statement dispatch on a `while` token always
invokes the while-statement procedure (modelled from the spec, symmetric to
the if branch); every successful run of that procedure returns a
`WhileStatementNode`; and on a while statement whose condition and body the
expression/statement procedures accept (`while tt do x := 1; end ;`) the
result holds the condition and the ordered body statements.  Not every
token sequence that is a well-formed while statement under the spec grammar
parses — see the counterexample. -/
theorem c1_while_dispatch :
    (∀ (f : Nat) (p : ParserState), p.currentToken.tokenType = .WHILE →
      parseStatement (f + 1) p = parseWhileStatement f p) ∧
    (∀ (f : Nat) (p : ParserState) (a : Ast) (p' : ParserState),
      parseWhileStatement f p = .ok (a, p') →
      ∃ cond body, a = .whileStatementNode cond body) ∧
    runParser whileDemoTokens 30 =
      .ok (.programNode [.whileStatementNode (.boolNode true)
        [.assignStatementNode (.varNode (.str "x")) (.intNode (.int 1))]]) := by
  refine ⟨?_, ?_, by rfl⟩
  · intro f p h
    simp only [parseStatement]
    rw [h]
  · intro f p a p' h
    match f with
    | 0 => simp [parseWhileStatement] at h
    | g + 1 =>
      simp only [parseWhileStatement] at h
      repeat' split at h
      all_goals (try (exfalso; exact Except.noConfusion h))
      simp only [Except.ok.injEq, Prod.mk.injEq] at h
      exact ⟨_, _, h.1.symm⟩

/-- C1 counterexample.  `while x < 10 do x := 1; end` begins a well-formed
while statement under the spec grammar, yet the statement dispatch on its
`while` token fails with `SyntaxError("Unexpected token do")` (the boolean
factor consumes the comparand `10` and then parses an arithmetic expression
from the NEXT token, `do`) instead of returning a `WhileStatementNode`. -/
theorem c1_while_dispatch_counterexample :
    parseStatement 30 ⟨whileGrammarTokens, 0⟩ =
      .error (.unexpectedToken (.str "do")) := by rfl

/-- C1 witness: both universally quantified parts of `c1_while_dispatch`
instantiated on concrete input with their hypotheses discharged. -/
theorem c1_while_dispatch_witness :
    parseStatement 30 ⟨whileDemoTokens, 0⟩ =
      parseWhileStatement 29 ⟨whileDemoTokens, 0⟩ ∧
    (∃ cond body, Ast.whileStatementNode (.boolNode true)
      [.assignStatementNode (.varNode (.str "x")) (.intNode (.int 1))] =
        .whileStatementNode cond body) :=
  ⟨c1_while_dispatch.1 29 ⟨whileDemoTokens, 0⟩ (by rfl),
   c1_while_dispatch.2.1 29 ⟨whileDemoTokens, 0⟩
     (Ast.whileStatementNode (.boolNode true)
       [.assignStatementNode (.varNode (.str "x")) (.intNode (.int 1))])
     ⟨whileDemoTokens, 8⟩ (by rfl)⟩

/-- Tokens of the condition `x + 1 < 5`. -/
def conditionPlusTokens : List Token :=
  [⟨.str "x", .IDENTIFIER⟩, ⟨.str "+", .PLUS⟩, ⟨.int 1, .INTEGER⟩,
   ⟨.str "<", .LESS_THAN⟩, ⟨.int 5, .INTEGER⟩, ⟨.none, .EOF⟩]

/-- C2.  On the condition `x + 1 < 5` the boolean factor consumes the atom
`x`, sees `+` (neither a comparison operator nor a right bracket) and then
calls `_parse_arithmetic_expression` starting at the CURRENT position — the
consumed atom is never rewound — so the arithmetic factor consumes `+` and
raises `SyntaxError("Unexpected token +")`; the claimed result
`Comparison(ArithmeticExpr(x, +, 1), <, 5)` is never built. -/
theorem c2_atom_not_rewound :
    lexProgram "x + 1 < 5" = .ok conditionPlusTokens ∧
    parseBooleanExpression 15 ⟨conditionPlusTokens, 0⟩ =
      .error (.unexpectedToken (.str "+")) := ⟨rfl, rfl⟩

/-- Tokens of the condition `1 <= x ^ x < 10`. -/
def conditionChainTokens : List Token :=
  [⟨.int 1, .INTEGER⟩, ⟨.str "<=", .LESS_OR_EQUAL⟩, ⟨.str "x", .IDENTIFIER⟩,
   ⟨.str "^", .AND⟩, ⟨.str "x", .IDENTIFIER⟩, ⟨.str "<", .LESS_THAN⟩,
   ⟨.int 10, .INTEGER⟩, ⟨.none, .EOF⟩]

/-- C3.  Parsing the condition `1 <= x ^ x < 10` does not yield
`And(Comparison(1, <=, x), Comparison(x, <, 10))`: in the code the `^` loop
sits INSIDE `_parse_boolean_term`, below the comparison loop of
`_parse_boolean_expression` (so `^` binds tighter than comparisons), and on
this input parsing in fact aborts with `SyntaxError("Unexpected token ^")`,
because after the comparand `x` the boolean factor falls through to
`_parse_arithmetic_expression` at the `^` token. -/
theorem c3_conjunction_not_looser :
    lexProgram "1 <= x ^ x < 10" = .ok conditionChainTokens ∧
    parseBooleanExpression 15 ⟨conditionChainTokens, 0⟩ =
      .error (.unexpectedToken (.str "^")) := ⟨rfl, rfl⟩

/-- Tokens of `x :=` (assignment cut short at end of input). -/
def truncatedAssignTokens : List Token :=
  [⟨.str "x", .IDENTIFIER⟩, ⟨.str ":=", .ASSIGNMENT⟩, ⟨.none, .EOF⟩]

/-- C4.  Failure modes other than the two declared error kinds ARE
reachable: scanning the input `if` (a keyword at the very end of input)
raises `IndexError` in `_previous_chars`; after scanning `x ` (trailing
whitespace) the next `next_token` call evaluates `None.isspace()` and raises
`AttributeError`; and the parser's `_consume_next_token` reads past the EOF
token on `x :=` and raises `IndexError`. -/
theorem c4_undeclared_failures_reachable :
    lexFirstToken "if" = .error .indexError ∧
    lexSecondToken "x " = .error .noneType ∧
    runParser truncatedAssignTokens 20 = .error .indexError := ⟨rfl, rfl, rfl⟩

/-- Tokens of `x := 1 + 2 * 3;`. -/
def precedenceTokens : List Token :=
  [⟨.str "x", .IDENTIFIER⟩, ⟨.str ":=", .ASSIGNMENT⟩, ⟨.int 1, .INTEGER⟩,
   ⟨.str "+", .PLUS⟩, ⟨.int 2, .INTEGER⟩, ⟨.str "*", .TIMES⟩,
   ⟨.int 3, .INTEGER⟩, ⟨.str ";", .EOL⟩, ⟨.none, .EOF⟩]

/-- Tokens of `x := 1 - 2 - 3;`. -/
def leftAssocTokens : List Token :=
  [⟨.str "x", .IDENTIFIER⟩, ⟨.str ":=", .ASSIGNMENT⟩, ⟨.int 1, .INTEGER⟩,
   ⟨.str "-", .MINUS⟩, ⟨.int 2, .INTEGER⟩, ⟨.str "-", .MINUS⟩,
   ⟨.int 3, .INTEGER⟩, ⟨.str ";", .EOL⟩, ⟨.none, .EOF⟩]

/-- C5.  `x := 1 + 2 * 3;` parses to an assignment whose right-hand side is
`ArithmeticExpr(1, +, ArithmeticExpr(2, *, 3))`, which differs from the
left-nested `ArithmeticExpr(ArithmeticExpr(1, +, 2), *, 3)`; and
`x := 1 - 2 - 3;` parses left-associatively to
`ArithmeticExpr(ArithmeticExpr(1, -, 2), -, 3)`. -/
theorem c5_arith_precedence :
    lexProgram "x := 1 + 2 * 3;" = .ok precedenceTokens ∧
    runParser precedenceTokens 30 =
      .ok (.programNode [.assignStatementNode (.varNode (.str "x"))
        (.arithmeticExpressionNode (.intNode (.int 1)) (.str "+")
          (.arithmeticExpressionNode (.intNode (.int 2)) (.str "*")
            (.intNode (.int 3))))]) ∧
    (Ast.arithmeticExpressionNode (.intNode (.int 1)) (.str "+")
        (.arithmeticExpressionNode (.intNode (.int 2)) (.str "*")
          (.intNode (.int 3)))) ≠
      (Ast.arithmeticExpressionNode
        (.arithmeticExpressionNode (.intNode (.int 1)) (.str "+")
          (.intNode (.int 2))) (.str "*") (.intNode (.int 3))) ∧
    lexProgram "x := 1 - 2 - 3;" = .ok leftAssocTokens ∧
    runParser leftAssocTokens 30 =
      .ok (.programNode [.assignStatementNode (.varNode (.str "x"))
        (.arithmeticExpressionNode
          (.arithmeticExpressionNode (.intNode (.int 1)) (.str "-")
            (.intNode (.int 2)))
          (.str "-") (.intNode (.int 3)))]) :=
  ⟨rfl, rfl, by simp, rfl, rfl⟩

/-- C6 (as amended).  `_match_keyword` commits to a keyword token exactly
when the keyword's characters are followed by whitespace or `;` (first
part); when the keyword sits at the very end of the input the keyword
branch is selected but the scanner fails with an index error instead of
returning the token (second part; this is the amendment — see the
counterexample); in every other case the match declines and restores the
cursor, after which the characters are scanned as (part of) an identifier —
in particular scanning `iffy := 1;` yields the identifier token `iffy`,
never an `if` keyword token followed by `fy` (third and fourth parts). -/
theorem c6_keyword_commit :
    (∀ (s : List Char) (pos : Nat) (kw : List Char) (ty : TokenType) (c : Char),
      (s.drop pos).take kw.length = kw → s[pos + kw.length]? = some c →
      (pyIsSpace c || c == ';') = true →
      Lexer.matchKeyword ⟨s, pos⟩ kw ty =
        .ok (some ⟨.str (String.mk kw), ty⟩, ⟨s, pos + kw.length⟩)) ∧
    (∀ (s : List Char) (pos : Nat) (kw : List Char) (ty : TokenType),
      (s.drop pos).take kw.length = kw → pos + kw.length = s.length →
      Lexer.matchKeyword ⟨s, pos⟩ kw ty = .error .indexError) ∧
    (∀ (s : List Char) (pos : Nat) (kw : List Char) (ty : TokenType),
      pos < s.length →
      ((s.drop pos).take kw.length ≠ kw ∨
        ∃ c, s[pos + kw.length]? = some c ∧ (pyIsSpace c || c == ';') = false) →
      Lexer.matchKeyword ⟨s, pos⟩ kw ty = .ok (Option.none, ⟨s, pos⟩)) ∧
    lexProgram "iffy := 1;" =
      .ok [⟨.str "iffy", .IDENTIFIER⟩, ⟨.str ":=", .ASSIGNMENT⟩,
           ⟨.int 1, .INTEGER⟩, ⟨.str ";", .EOL⟩, ⟨.none, .EOF⟩] := by
  refine ⟨?_, ?_, ?_, by rfl⟩
  · intro s pos kw ty c hpre hc hsep
    have hlt : pos + kw.length < s.length := (List.getElem?_eq_some_iff.mp hc).1
    have h1 : ((s.drop pos).take (kw.length + 1)).take kw.length = kw := by
      rw [List.take_take, Nat.min_eq_left (Nat.le_succ _)]
      exact hpre
    have h2 : ((s.drop pos).take (kw.length + 1))[kw.length]? = some c := by
      rw [List.getElem?_take_of_succ, List.getElem?_drop]
      exact hc
    have harith : pos + (kw.length + 1) - 1 = pos + kw.length := by omega
    simp only [Lexer.matchKeyword, Lexer.nextChars, Lexer.previousChars, h1, h2,
      hsep, beq_self_eq_true, Bool.true_and, Bool.or_true, if_true, harith,
      if_pos hlt]
  · intro s pos kw ty hpre hend
    have h1 : ((s.drop pos).take (kw.length + 1)).take kw.length = kw := by
      rw [List.take_take, Nat.min_eq_left (Nat.le_succ _)]
      exact hpre
    have hlen : ((s.drop pos).take (kw.length + 1)).length = kw.length := by
      simp only [List.length_take, List.length_drop]
      omega
    have harith : pos + (kw.length + 1) - 1 = pos + kw.length := by omega
    simp only [Lexer.matchKeyword, Lexer.nextChars, Lexer.previousChars, h1,
      hlen, beq_self_eq_true, Bool.true_and, Bool.true_or, if_true, harith,
      if_neg (by omega : ¬ (pos + kw.length < s.length))]
  · intro s pos kw ty hpos hmiss
    have hback : pos + (kw.length + 1) - (kw.length + 1) = pos := by omega
    rcases hmiss with hne | ⟨c, hc, hns⟩
    · have h1 : ((s.drop pos).take (kw.length + 1)).take kw.length ≠ kw := by
        rw [List.take_take, Nat.min_eq_left (Nat.le_succ _)]
        exact hne
      simp only [Lexer.matchKeyword, Lexer.nextChars, Lexer.previousChars]
      rw [if_neg (by simp [h1])]
      simp only [hback, if_pos hpos]
    · have h2 : ((s.drop pos).take (kw.length + 1))[kw.length]? = some c := by
        rw [List.getElem?_take_of_succ, List.getElem?_drop]
        exact hc
      have hlt : pos + kw.length < s.length := (List.getElem?_eq_some_iff.mp hc).1
      have hlen : ((s.drop pos).take (kw.length + 1)).length = kw.length + 1 := by
        simp only [List.length_take, List.length_drop]
        omega
      simp only [Lexer.matchKeyword, Lexer.nextChars, Lexer.previousChars, h2,
        hlen, hns]
      rw [if_neg (by simp)]
      simp only [hback, if_pos hpos]

/-- C6 counterexample.  The claim says the scanner commits to a keyword
token also when the keyword is followed by end of input; on the input `do`
(a keyword at the very end) the match condition holds but the commit-time
rollback raises `IndexError`, so no keyword token is returned. -/
theorem c6_keyword_commit_counterexample :
    lexFirstToken "do" = .error .indexError := rfl

/-- C6 witness: the commit part of `c6_keyword_commit` instantiated on the
keyword `if` followed by a space, hypotheses discharged by evaluation. -/
theorem c6_keyword_commit_witness :
    Lexer.matchKeyword ⟨"if x".data, 0⟩ "if".data .IF =
      .ok (some ⟨.str "if", .IF⟩, ⟨"if x".data, 2⟩) :=
  c6_keyword_commit.1 "if x".data 0 "if".data .IF ' ' (by rfl) (by rfl) (by rfl)

/-- C7.  At end of input (`_char` is `None`, equivalently the cursor is past
the last character) `next_token` returns an end-of-input token and leaves
the scanner state unchanged, so every subsequent call returns the same EOF
token; determinism from equal states holds by construction, the embedding
being a pure function of the scanner state. -/
theorem c7_next_token_idempotent_at_eof (l : Lexer)
    (h : l.char = Option.none) :
    l.nextToken = .ok (⟨.none, .EOF⟩, l) := by
  unfold Lexer.nextToken
  rw [h]

/-- C7 witness: the exhausted state after scanning `x`. -/
theorem c7_next_token_idempotent_at_eof_witness :
    Lexer.nextToken ⟨"x".data, 1⟩ = .ok (⟨.none, .EOF⟩, ⟨"x".data, 1⟩) :=
  c7_next_token_idempotent_at_eof ⟨"x".data, 1⟩ (by rfl)

/-- Tokens of `if tt 0 else end ;` — an if statement whose `then` keyword is
replaced by the integer token `0`. -/
def ifNoThenTokens : List Token :=
  [⟨.str "if", .IF⟩, ⟨.str "tt", .TT⟩, ⟨.int 0, .INTEGER⟩,
   ⟨.str "else", .ELSE⟩, ⟨.str "end", .END⟩, ⟨.str ";", .EOL⟩, ⟨.none, .EOF⟩]

/-- C8.  `_consume_token_type` does fail with a syntax error carrying the
expected construct and the actual token's value (first part, an instance),
but the `then` position of `_parse_if_statement` is consumed with
`_consume_next_token` — no kind check — so an if statement whose `then` is
replaced by the integer token `0` parses SILENTLY to
`IfStatementNode(tt, [], [])` instead of raising a syntax error. -/
theorem c8_then_not_checked :
    consumeTokenType ⟨ifNoThenTokens, 0⟩ .EOL "Expected semicolon" =
      .error (.expected "Expected semicolon" (.str "if")) ∧
    runParser ifNoThenTokens 30 =
      .ok (.programNode [.ifStatementNode (.boolNode true) [] []]) := ⟨rfl, rfl⟩

/-- C9.  Constructing the scanner on the empty source string fails
immediately: `__init__` reads `string[0]`, an out-of-range index, so no
scanner state exists for empty input and no end-of-input token can ever be
returned for it. -/
theorem c9_empty_source_index_error :
    Lexer.init "".data = .error .indexError := rfl

/-- Tokens of `skip;`. -/
def skipTokens : List Token :=
  [⟨.str "skip", .SKIP⟩, ⟨.str ";", .EOL⟩, ⟨.none, .EOF⟩]

/-- C10.  The statement dispatch has no case for the SKIP token kind, so any
statement position holding a `skip` token fails with a syntax error naming
that token (first part); the scanner does tokenize `skip;` with a SKIP
keyword token (second part), and parsing that program fails with
`SyntaxError("Unexpected token skip")` (third part): skip is lexable but
never parseable. -/
theorem c10_skip_unparseable :
    (∀ (f : Nat) (p : ParserState), p.currentToken.tokenType = .SKIP →
      parseStatement (f + 1) p = .error (.unexpectedToken p.currentToken.value)) ∧
    lexProgram "skip;" = .ok skipTokens ∧
    runParser skipTokens 30 = .error (.unexpectedToken (.str "skip")) := by
  refine ⟨?_, by rfl, by rfl⟩
  intro f p h
  simp only [parseStatement]
  rw [h]

/-- C10 witness: the dispatch part of `c10_skip_unparseable` at the
concrete skip program. -/
theorem c10_skip_unparseable_witness :
    parseStatement 1 ⟨skipTokens, 0⟩ = .error (.unexpectedToken (.str "skip")) :=
  c10_skip_unparseable.1 0 ⟨skipTokens, 0⟩ (by rfl)
